import Mathlib

/-!
Shallow embedding of src/evd.py (a Dash web display for NEXT calibration
runs) together with proofs about its log-polling, dataset-probing and
calibration handlers.

Pure string and state manipulating fragments of the Python code are
translated directly.  External collaborators (h5py, the krcal map_builder
engine, the IC configure parser, mktime/strftime time conversion) are
abstract function parameters, since the properties below quantify over
their possible outcomes.
-/

namespace Evd

/-! ## Log sink (evd.py lines 159 to 162)

The process redirects sys.stdout and sys.stderr into two StringIO
accumulation buffers.  A StringIO written by print only grows by
appending, which is modelled by the two append operations below. -/

/-- The two diagnostic accumulation buffers: my_stdout and my_stderr
(evd.py lines 159 to 162). -/
structure Buffers where
  out : String
  err : String
deriving DecidableEq

/-- Append text to the stdout buffer (the effect of a print call). -/
def appendOut (b : Buffers) (s : String) : Buffers :=
  { b with out := b.out ++ s }

/-- Append text to the stderr buffer. -/
def appendErr (b : Buffers) (s : String) : Buffers :=
  { b with err := b.err ++ s }

/-- The concatenation my_stdout.getvalue() + my_stderr.getvalue()
computed by the poll handler (evd.py lines 178 to 180). -/
def current (b : Buffers) : String :=
  b.out ++ b.err

/-- The scroll instruction returned with every poll
(evd.py lines 173 to 176). -/
def js_cmd : String :=
  "var textarea = document.getElementById(\x27live-update-text\x27); textarea.scrollTop = textarea.scrollHeight;"

/-- The poll callback update_metrics (evd.py lines 164 to 180): given the
text the client currently displays (None on the very first poll, modelled
by the empty string, which is equally falsy in Python) and the buffer
state, return the new text plus the scroll instruction. -/
def update_metrics (log : String) (b : Buffers) : String × String :=
  if log ≠ "" then
    if log ≠ current b then (log ++ current b, js_cmd)
    else (current b, js_cmd)
  else (current b, js_cmd)

/-! ## Registered callbacks and the clear-log button (evd.py lines 146 to 242) -/

/-- The callback registry of the app: for each triggering Input component,
the list of Output properties its callback writes.  Read off the three
app.callback decorators (evd.py lines 164 to 171, 183 to 192, 227 to 242).
No other callback is registered anywhere in the source. -/
def callbackRegistry : List (String × List String) :=
  [("interval-component",
    ["live-update-text.value", "javascriptLog.run"]),
   ("button-load",
    ["alert-file-not-found.is_open", "alert-file-not-found.children",
     "start-date-time.value", "end-date-time.value"]),
   ("button-calibrate",
    ["alert-file-not-found.is_open", "alert-file-not-found.children",
     "alert-error.is_open", "alert-error.children",
     "calibration-figure.figure"])]

/-- The log-related client state: the text shown in the live-update-text
textarea and the two server-side buffers. -/
structure LogView where
  clientLog : String
  bufs : Buffers
deriving DecidableEq

/-- Effect of a click on the Clear log button (evd.py line 151).  The
source declares the button with id button-clears but registers no callback
taking it as an Input (see callbackRegistry); in Dash a click on a
component that triggers no callback changes no component property, so the
click leaves the client text and both buffers unchanged. -/
def clearLogClick (v : LogView) : LogView := v

/-! ## Job orchestrator: the calibrate callback (evd.py lines 227 to 359) -/

/-- A 2D numeric grid; the four map grids are float arrays in the source,
modelled with rational entries since no property below computes on them. -/
def Grid := List (List Rat)

/-- The map artifact read back by read_maps (evd.py line 299): the four
named grids e0, e0u, lt, ltu used at lines 331, 338, 345, 352. -/
structure FinalMap where
  e0 : Grid
  e0u : Grid
  lt : Grid
  ltu : Grid

/-- The data content of the 2 by 2 heat-map figure built at evd.py lines
306 to 356: one grid per panel, in source order. -/
structure Fig where
  e0 : Grid
  e0u : Grid
  lt : Grid
  ltu : Grid

/-- Build the figure from the final map (evd.py lines 329 to 356: the four
add_trace calls pass z = final_map.e0, .e0u, .lt, .ltu). -/
def makeFig (m : FinalMap) : Fig :=
  ⟨m.e0, m.e0u, m.lt, m.ltu⟩

/-- A configuration value: the merged configuration holds numbers, strings,
and one nested dictionary (ref_Z_histogram). -/
inductive Val where
  | i : Int → Val
  | s : String → Val
  | r : Rat → Val
  | d : List (String × Val) → Val

/-- A configuration mapping, modelling the dict-like Configure object
returned by configure (evd.py line 275). -/
def ConfigMap := String → Option Val

/-- Overwrite-or-insert of one key, the semantics of a Python dict update
for a single key. -/
def setKey (m : ConfigMap) (k : String) (v : Val) : ConfigMap :=
  fun x => if x = k then some v else m x

/-- Apply a sequence of key updates in order: config.update(dict(...)) at
evd.py lines 280 to 287 and 289 to 295. -/
def setKeys (m : ConfigMap) (l : List (String × Val)) : ConfigMap :=
  l.foldl (fun m kv => setKey m kv.1 kv.2) m

/-- Outcome of the guarded block at evd.py lines 297 to 299: map_builder
followed by read_maps.  ok carries the map read back on success; valueError
and otherError carry the text of a raised ValueError or of any other
exception, the two cases the except clauses at lines 300 and 303 catch. -/
inductive EngineResult where
  | ok : FinalMap → EngineResult
  | valueError : String → EngineResult
  | otherError : String → EngineResult

/-- The external collaborators of the calibrate handler, abstracted as
functions: configure parsing the snapshot text (line 275), the
mktime-of-parse_datetime conversion of a time string to epoch seconds
(lines 276 to 278), the engine block (lines 297 to 299), plus the working
directory os.getcwd() and the ICARO environment variable. -/
structure Env where
  parseConfig : String → ConfigMap
  toEpoch : String → Int
  engine : ConfigMap → EngineResult
  cwd : String
  icaro : String

/-- One Dash output value: a boolean flag, a string, a figure, or the
dash.no_update sentinel that leaves the target property unchanged. -/
inductive OutVal where
  | b : Bool → OutVal
  | s : String → OutVal
  | fig : Fig → OutVal
  | noUpdate : OutVal

/-- Side effects of one calibrate call, in program order: the snapshot
write open("config.conf","w") at evd.py lines 272 to 273 and the engine
invocation map_builder(config.as_namespace) at line 298. -/
inductive Event where
  | snapshotWrite : String → Event
  | engineInvoke : ConfigMap → Event

/-- Result of one calibrate call: the returned output tuple (as a list)
and the ordered side-effect trace. -/
structure CalResult where
  outputs : List OutVal
  events : List Event

/-- evd.py line 255. -/
def file_bootstrap : String :=
  "/Users/roberto/next/IC/invisible_cities/database/test_data/kr_emap_xy_100_100_r_6573_time.h5"

/-- evd.py line 256. -/
def ref_histo_file (icaro : String) : String :=
  icaro ++ "/krcal/map_builder/reference_files/z_dst_LB_mean_ref.h5"

/-- os.path.join of "./" and "map.h5", evd.py line 260. -/
def map_file_out : String := "./map.h5"

/-- os.path.join of "./" and "histos.h5", evd.py line 261. -/
def histo_file_out : String := "./histos.h5"

/-- The nested dictionary built at evd.py lines 267 to 269. -/
def ref_Z_histogram (icaro : String) : Val :=
  .d [("ref_histo_file", .s (ref_histo_file icaro)),
      ("key_Z_histo", .s "histo_Z_dst")]

/-- The merged configuration handed to the engine: the parse of the
snapshot text (evd.py line 275; the file was just written with exactly the
textarea content, line 273) updated with the epoch time window and the two
efficiency thresholds (lines 276 to 287), then with the working paths,
reference histogram descriptor, run number and bootstrap map (lines 289
to 295). -/
def mergedConfig (env : Env) (configText input_filename start_time end_time : String) :
    ConfigMap :=
  let config0 := env.parseConfig configText
  let start_timestamp := env.toEpoch start_time
  let end_timestamp := env.toEpoch end_time
  let config1 := setKeys config0
    [("time_start", .i start_timestamp),
     ("time_end", .i end_timestamp),
     ("nS1_eff_min", .r (7 / 10)),
     ("nS2_eff_min", .r (7 / 10))]
  setKeys config1
    [("folder", .s (env.cwd ++ "/")),
     ("file_in", .s input_filename),
     ("file_out_map", .s map_file_out),
     ("file_out_hists", .s histo_file_out),
     ("ref_Z_histogram", ref_Z_histogram env.icaro),
     ("run_number", .i 1),
     ("file_bootstrap_map", .s file_bootstrap)]

/-- The tuple returned by the empty-path branch at evd.py lines 245 to 253:
six values against five declared outputs. -/
def inputMissingOutputs : List OutVal :=
  [.b true, .s "You need to specify an input file",
   .noUpdate, .noUpdate, .noUpdate, .noUpdate]

/-- The tuple the calibrate handler returns for each engine outcome:
ValueError branch at evd.py line 302 (six values), generic exception
branch at line 304 (six values), success branch at line 359 (five values,
the figure last). -/
def calibrateOutputs (input_filename : String) : EngineResult → List OutVal
  | .valueError _ =>
      [.b true, .s ("Impossible to open " ++ input_filename ++ " "),
       .b false, .noUpdate, .noUpdate, .noUpdate]
  | .otherError msg =>
      [.b false, .noUpdate, .b true, .s msg, .noUpdate, .noUpdate]
  | .ok m =>
      [.b false, .noUpdate, .noUpdate, .noUpdate, .fig (makeFig m)]

/-- The calibrate callback (evd.py lines 227 to 359).  An empty input
filename returns the input-missing tuple at once, with no side effect
(lines 245 to 253).  Otherwise the handler writes the raw textarea content
to config.conf (lines 272 to 273), builds the merged configuration (lines
275 to 295), invokes the engine exactly once (line 298) and maps its
outcome to the output tuple.  Diagnostic prints, which only append to the
log buffers, are not part of this model. -/
def calibrate (env : Env) (config input_filename start_time end_time : String) :
    CalResult :=
  if input_filename = "" then
    { outputs := inputMissingOutputs, events := [] }
  else
    { outputs := calibrateOutputs input_filename
        (env.engine (mergedConfig env config input_filename start_time end_time)),
      events := [Event.snapshotWrite config,
                 Event.engineInvoke (mergedConfig env config input_filename start_time end_time)] }

/-- Test for an engine invocation event. -/
def isEngineInvoke : Event → Bool
  | .engineInvoke _ => true
  | .snapshotWrite _ => false

/-- Number of engine invocations recorded in a trace. -/
def countEngineCalls (evs : List Event) : Nat :=
  (evs.filter isEngineInvoke).length

/-- Content of the config.conf snapshot file after a trace runs, given its
prior content: each snapshot write opens the file in mode "w", truncating
it, so the last written content wins. -/
def applySnapshotWrites (prior : String) : List Event → String
  | [] => prior
  | Event.snapshotWrite c :: rest => applySnapshotWrites c rest
  | Event.engineInvoke _ :: rest => applySnapshotWrites prior rest

/-- The five Output properties declared by the calibrate app.callback
decorator (evd.py lines 228 to 234). -/
def calibrateDeclaredOutputs : List String :=
  ["alert-file-not-found.is_open", "alert-file-not-found.children",
   "alert-error.is_open", "alert-error.children",
   "calibration-figure.figure"]

/-! ## Dataset prober: the load_times callback (evd.py lines 183 to 224) -/

/-- Outcome of opening the dataset and reading its DST/Events/time column
(evd.py lines 201 to 202), matching the except clauses at lines 207, 214
and 216: the file may be missing, a directory, otherwise unreadable, or
readable with a list of timestamps.  Timestamps are modelled as integers;
only their order matters below. -/
inductive FileOutcome where
  | notFound
  | isADirectory
  | otherOSError
  | ok : List Int → FileOutcome

/-- The load_times callback (evd.py lines 183 to 224), with the file
system and the format function
datetime.fromtimestamp(.).strftime of "%Y-%m-%dT%H:%M:%S" — a local
datetime string at whole-second precision — as abstract parameters.
The four declared outputs are the file-not-found alert flag and text
and the two time fields (lines 185 to 188); the empty-filename branch
returns only two values (lines 194 to 198), kept as in the source.
A readable file with an empty timestamp column makes the min call at
line 204 raise an uncaught ValueError, modelled as none. -/
def load_times (fs : String → FileOutcome) (fmt : Int → String)
    (input_filename : String) : Option (List OutVal) :=
  if input_filename = "" then
    some [.b true, .s "You need to specify an input file"]
  else
    match fs input_filename with
    | .notFound =>
        some [.b true, .s ("File " ++ input_filename ++ " not found"),
              .noUpdate, .noUpdate]
    | .isADirectory =>
        some [.noUpdate, .b false, .noUpdate, .noUpdate]
    | .otherOSError =>
        some [.b true, .s ("File " ++ input_filename ++ " is not a valid file"),
              .noUpdate, .noUpdate]
    | .ok [] => none
    | .ok (t :: ts) =>
        some [.b false, .noUpdate,
              .s (fmt (List.foldl min t ts)),
              .s (fmt (List.foldl max t ts))]

/-! ## Theorems for claims C1, C2, C7 -/

theorem data_append_str (s t : String) : (s ++ t).data = s.data ++ t.data :=
  String.data_append s t

theorem poll_text_has_current_as_tail (log : String) (b : Buffers) :
    ∃ pre : String, (update_metrics log b).1 = pre ++ current b := by
  unfold update_metrics
  by_cases h1 : log = ""
  · refine ⟨"", ?_⟩
    simp [h1]
  · by_cases h2 : log = current b
    · refine ⟨"", ?_⟩
      simp [h1, h2]
    · refine ⟨log, ?_⟩
      simp [h1, h2]

theorem middle_contained (a b c : String) : b.data <:+: (a ++ b ++ c).data :=
  ⟨a.data, c.data, by simp [data_append_str]⟩

/-- C1, counterexample: with my_stdout = "X" and my_stderr = "Y", appending
"Z" to the stdout buffer (an append-only buffer evolution) turns the poll
concatenation from "XY" into "XZY", of which "XY" is not a prefix: the
concatenation observed at the later poll does not extend the earlier one. -/
theorem C1_concat_not_monotone :
    appendOut ⟨"X", "Y"⟩ "Z" = ⟨"XZ", "Y"⟩
    ∧ current ⟨"X", "Y"⟩ = "XY"
    ∧ current (appendOut ⟨"X", "Y"⟩ "Z") = "XZY"
    ∧ ¬ ((current ⟨"X", "Y"⟩).data <+: (current (appendOut ⟨"X", "Y"⟩ "Z")).data) := by
  refine ⟨rfl, rfl, rfl, by decide⟩

/-- C1, amended: the buffer concatenation at the later poll extends the
earlier one whenever the appends between the two polls touch only the
stderr buffer, or the stderr buffer was empty at the earlier poll; and
after writes "A" then "B" to the stdout buffer, the text returned by the
next poll contains "AB" contiguously in that order. -/
theorem C1_append_monotonicity (b : Buffers) (e a log : String) :
    ((current b).data <+: (current (appendErr b e)).data)
    ∧ (b.err = "" → (current b).data <+: (current (appendOut b a)).data)
    ∧ (['A', 'B'] <:+: ((update_metrics log (appendOut (appendOut b "A") "B")).1).data) := by
  refine ⟨⟨e.data, by simp [current, appendErr, data_append_str]⟩, ?_, ?_⟩
  · intro herr
    refine ⟨a.data, ?_⟩
    simp [current, appendOut, herr, data_append_str]
  · obtain ⟨pre, hpre⟩ := poll_text_has_current_as_tail log (appendOut (appendOut b "A") "B")
    rw [hpre]
    refine ⟨pre.data ++ b.out.data, b.err.data, ?_⟩
    have hAB : ("A" ++ "B" : String).data = ['A', 'B'] := rfl
    simp [current, appendOut, data_append_str]

/-- C1 witness: instantiation of the amended claim at concrete buffers,
discharging the hypothesis that the stderr buffer starts empty. -/
theorem C1_append_monotonicity_witness :
    (current ⟨"X", "Y"⟩).data <+: (current (appendErr ⟨"X", "Y"⟩ "Z")).data
    ∧ ((current ⟨"X", ""⟩).data <+: (current (appendOut ⟨"X", ""⟩ "Z")).data)
    ∧ (['A', 'B'] <:+: ((update_metrics "L" (appendOut (appendOut ⟨"X", "Y"⟩ "A") "B")).1).data) := by
  have h := C1_append_monotonicity ⟨"X", "Y"⟩ "Z" "Z" "L"
  have h2 := C1_append_monotonicity ⟨"X", ""⟩ "Z" "Z" "L"
  exact ⟨h.1, h2.2.1 rfl, h.2.2⟩

/-- C2, counterexample: with client text "X" and buffers holding "Y", the
first poll returns "XY" and an immediate second poll with no buffer write
in between returns "XYY", not "XY": polling is not idempotent. -/
theorem C2_poll_not_idempotent :
    (update_metrics "X" ⟨"Y", ""⟩).1 = "XY"
    ∧ (update_metrics (update_metrics "X" ⟨"Y", ""⟩).1 ⟨"Y", ""⟩).1 = "XYY"
    ∧ (update_metrics (update_metrics "X" ⟨"Y", ""⟩).1 ⟨"Y", ""⟩).1
        ≠ (update_metrics "X" ⟨"Y", ""⟩).1 := by
  refine ⟨rfl, rfl, by decide⟩

/-- C2, amended: a second poll fed the first poll result returns exactly
the same text provided the starting client text is empty, or already equals
the buffer concatenation, or the buffers are empty — in particular in the
steady state where the displayed text is exactly the buffer content. -/
theorem C2_poll_idempotent_when_synced (log : String) (b : Buffers)
    (h : log = "" ∨ log = current b ∨ current b = "") :
    (update_metrics (update_metrics log b).1 b).1 = (update_metrics log b).1 := by
  have hcur : (update_metrics (current b) b).1 = current b := by
    unfold update_metrics
    by_cases hc : current b = "" <;> simp [hc]
  rcases h with h | h | h
  · rw [h]
    show (update_metrics (update_metrics "" b).1 b).1 = (update_metrics "" b).1
    have h0 : (update_metrics "" b).1 = current b := by
      simp [update_metrics]
    rw [h0]
    exact hcur
  · rw [h]
    have h0 : (update_metrics (current b) b).1 = current b := hcur
    rw [h0]
    exact hcur
  · by_cases hl : log = ""
    · rw [hl]
      have h0 : (update_metrics "" b).1 = current b := by
        simp [update_metrics]
      rw [h0]
      exact hcur
    · have h0 : (update_metrics log b).1 = log := by
        have hne : log ≠ current b := by
          rw [h]; exact hl
        simp [update_metrics, hl, hne, h]
      rw [h0]
      have hne : log ≠ current b := by
        rw [h]; exact hl
      simp [update_metrics, hl, hne, h]

/-- C2 witness: the amended idempotence at a concrete synced state. -/
theorem C2_poll_idempotent_when_synced_witness :
    (update_metrics (update_metrics "" ⟨"Y", ""⟩).1 ⟨"Y", ""⟩).1
      = (update_metrics "" ⟨"Y", ""⟩).1 :=
  C2_poll_idempotent_when_synced "" ⟨"Y", ""⟩ (Or.inl rfl)

/-! ## Theorems for claims C3 to C6, C8 to C10 -/

theorem calibrate_events (env : Env) (ct fn st et : String) (hfn : fn ≠ "") :
    (calibrate env ct fn st et).events
      = [Event.snapshotWrite ct, Event.engineInvoke (mergedConfig env ct fn st et)] := by
  unfold calibrate
  rw [if_neg hfn]

/-- A concrete environment whose engine raises a ValueError. -/
def envV : Env :=
  ⟨fun _ _ => none, fun _ => 0, fun _ => .valueError "boom", "/w", "/i"⟩

/-- A concrete environment whose engine raises a generic exception, with a
time conversion that sends the start string "s" to 42 and anything else
to 0. -/
def env0 : Env :=
  ⟨fun _ _ => none, fun s => if s = "s" then 42 else 0,
   fun _ => .otherError "x", "/w", "/i"⟩

/-- C3: for every environment and non-empty dataset path, a ValueError
from the engine block yields the file alert tuple whose message contains
the original dataset path, with the figure slot left no_update, and any
other engine exception yields the error alert tuple carrying the raw
failure text, again with no figure; the handler returns normally in every
case, so no engine exception escapes it. -/
theorem C3_engine_errors_converted (env : Env) (ct fn st et : String) (hfn : fn ≠ "") :
    (∀ m, env.engine (mergedConfig env ct fn st et) = .valueError m →
      (calibrate env ct fn st et).outputs
        = [.b true, .s ("Impossible to open " ++ fn ++ " "),
           .b false, .noUpdate, .noUpdate, .noUpdate]
      ∧ fn.data <:+: ("Impossible to open " ++ fn ++ " ").data)
    ∧ (∀ m, env.engine (mergedConfig env ct fn st et) = .otherError m →
      (calibrate env ct fn st et).outputs
        = [.b false, .noUpdate, .b true, .s m, .noUpdate, .noUpdate]) := by
  constructor
  · intro m hm
    refine ⟨?_, middle_contained "Impossible to open " fn " "⟩
    unfold calibrate
    rw [if_neg hfn]
    simp [hm, calibrateOutputs]
  · intro m hm
    unfold calibrate
    rw [if_neg hfn]
    simp [hm, calibrateOutputs]

/-- C3 witness: both engine failure conversions at concrete inputs. -/
theorem C3_engine_errors_converted_witness :
    ((calibrate envV "cfg" "run.h5" "s" "e").outputs
      = [.b true, .s ("Impossible to open " ++ "run.h5" ++ " "),
         .b false, .noUpdate, .noUpdate, .noUpdate]
      ∧ "run.h5".data <:+: ("Impossible to open " ++ "run.h5" ++ " ").data)
    ∧ (calibrate env0 "cfg" "run.h5" "s" "e").outputs
      = [.b false, .noUpdate, .b true, .s "x", .noUpdate, .noUpdate] :=
  ⟨(C3_engine_errors_converted envV "cfg" "run.h5" "s" "e" (by decide)).1 "boom" rfl,
   (C3_engine_errors_converted env0 "cfg" "run.h5" "s" "e" (by decide)).2 "x" rfl⟩

/-- C4: a calibrate call with an empty dataset path returns the
input-missing tuple and records no side effect at all: no snapshot write
and zero engine invocations. -/
theorem C4_empty_path_no_engine_call (env : Env) (ct st et : String) :
    calibrate env ct "" st et = { outputs := inputMissingOutputs, events := [] }
    ∧ countEngineCalls (calibrate env ct "" st et).events = 0 :=
  ⟨rfl, rfl⟩

/-- C5, counterexample: with user text "foo" the snapshot file ends up
holding exactly "foo", while the merged configuration handed to the engine
maps time_start to 42; neither the substring time_start nor the epoch
value 42 occurs in the persisted text, so the persisted text is not the
merged effective configuration but only the raw user edits. -/
theorem C5_snapshot_is_raw_text_only :
    applySnapshotWrites "old" (calibrate env0 "foo" "run.h5" "s" "e").events = "foo"
    ∧ mergedConfig env0 "foo" "run.h5" "s" "e" "time_start" = some (.i 42)
    ∧ ¬ ("time_start".data <:+: "foo".data)
    ∧ ¬ ("42".data <:+: "foo".data) := by
  refine ⟨rfl, rfl, by decide, by decide⟩

/-- C5, amended: for every non-empty path the handler persists the raw
free-text configuration, exactly as typed, to the snapshot file before the
engine is invoked; the write is unconditional (it happens for every engine
outcome) and overwrites any prior snapshot content; the derived parameters
and the time window are merged into the in-memory configuration only. -/
theorem C5_snapshot_written_before_engine (env : Env) (ct fn st et : String)
    (hfn : fn ≠ "") (prior : String) :
    (calibrate env ct fn st et).events
      = [Event.snapshotWrite ct, Event.engineInvoke (mergedConfig env ct fn st et)]
    ∧ applySnapshotWrites prior (calibrate env ct fn st et).events = ct := by
  have hev := calibrate_events env ct fn st et hfn
  refine ⟨hev, ?_⟩
  rw [hev]
  rfl

/-- C5 witness: the amended snapshot property at concrete inputs. -/
theorem C5_snapshot_written_before_engine_witness :
    (calibrate env0 "foo" "run.h5" "s" "e").events
      = [Event.snapshotWrite "foo",
         Event.engineInvoke (mergedConfig env0 "foo" "run.h5" "s" "e")]
    ∧ applySnapshotWrites "old" (calibrate env0 "foo" "run.h5" "s" "e").events = "foo" :=
  C5_snapshot_written_before_engine env0 "foo" "run.h5" "s" "e" (by decide) "old"

/-- C6: when the parsed end instant precedes the start instant, the call
is still accepted: the engine is invoked exactly once, and the merged
configuration it receives maps time_start and time_end to the unchanged
epoch conversions of the start and end strings, with no swap, clamp or
rejection anywhere. -/
theorem C6_reversed_window_accepted (env : Env) (ct fn st et : String)
    (hfn : fn ≠ "") (_hrev : env.toEpoch et < env.toEpoch st) :
    countEngineCalls (calibrate env ct fn st et).events = 1
    ∧ mergedConfig env ct fn st et "time_start" = some (.i (env.toEpoch st))
    ∧ mergedConfig env ct fn st et "time_end" = some (.i (env.toEpoch et))
    ∧ (calibrate env ct fn st et).events
      = [Event.snapshotWrite ct, Event.engineInvoke (mergedConfig env ct fn st et)] := by
  have hev := calibrate_events env ct fn st et hfn
  refine ⟨by rw [hev]; rfl, ?_, ?_, hev⟩
  · simp [mergedConfig, setKeys, setKey]
  · simp [mergedConfig, setKeys, setKey]

/-- C6 witness: a concrete reversed window, with epoch start 42 and epoch
end 0. -/
theorem C6_reversed_window_accepted_witness :
    countEngineCalls (calibrate env0 "cfg" "run.h5" "s" "e").events = 1
    ∧ mergedConfig env0 "cfg" "run.h5" "s" "e" "time_start"
        = some (.i (env0.toEpoch "s"))
    ∧ mergedConfig env0 "cfg" "run.h5" "s" "e" "time_end"
        = some (.i (env0.toEpoch "e"))
    ∧ (calibrate env0 "cfg" "run.h5" "s" "e").events
      = [Event.snapshotWrite "cfg",
         Event.engineInvoke (mergedConfig env0 "cfg" "run.h5" "s" "e")] :=
  C6_reversed_window_accepted env0 "cfg" "run.h5" "s" "e" (by decide) (by decide)

/-- C8: for every non-empty path on which the file system reports a
missing file, load_times returns the alert tuple whose message contains
the path, with both time-field outputs set to no_update, so the previously
displayed start and end times stay untouched. -/
theorem C8_missing_file_leaves_times (fs : String → FileOutcome) (fmt : Int → String)
    (fn : String) (hfn : fn ≠ "") (hfs : fs fn = .notFound) :
    load_times fs fmt fn
      = some [.b true, .s ("File " ++ fn ++ " not found"), .noUpdate, .noUpdate]
    ∧ fn.data <:+: ("File " ++ fn ++ " not found").data := by
  refine ⟨?_, middle_contained "File " fn " not found"⟩
  unfold load_times
  rw [if_neg hfn, hfs]

/-- A file system on which every path is missing. -/
def fsNF : String → FileOutcome := fun _ => .notFound

/-- A file system on which every path holds the timestamps 3, 1, 2. -/
def fs312 : String → FileOutcome := fun _ => .ok [3, 1, 2]

/-- C8 witness: the missing-file behaviour at a concrete path. -/
theorem C8_missing_file_leaves_times_witness :
    load_times fsNF toString "run.h5"
      = some [.b true, .s ("File " ++ "run.h5" ++ " not found"), .noUpdate, .noUpdate]
    ∧ "run.h5".data <:+: ("File " ++ "run.h5" ++ " not found").data :=
  C8_missing_file_leaves_times fsNF toString "run.h5" (by decide) rfl

theorem foldl_min_mem (a : Int) (l : List Int) : List.foldl min a l ∈ a :: l := by
  induction l generalizing a with
  | nil => simp [List.foldl]
  | cons b t ih =>
      rw [List.foldl_cons]
      rcases List.mem_cons.mp (ih (min a b)) with h | h
      · rcases min_choice a b with hc | hc
        · exact List.mem_cons.mpr (Or.inl (by rw [h, hc]))
        · exact List.mem_cons.mpr (Or.inr (List.mem_cons.mpr (Or.inl (by rw [h, hc]))))
      · exact List.mem_cons.mpr (Or.inr (List.mem_cons.mpr (Or.inr h)))

theorem foldl_min_le (a : Int) (l : List Int) :
    ∀ x ∈ a :: l, List.foldl min a l ≤ x := by
  induction l generalizing a with
  | nil =>
      intro x hx
      rw [List.mem_singleton.mp hx]
      exact le_refl _
  | cons b t ih =>
      intro x hx
      rw [List.foldl_cons]
      have hhead : List.foldl min (min a b) t ≤ min a b :=
        ih (min a b) (min a b) (List.mem_cons_self _ _)
      rcases List.mem_cons.mp hx with rfl | hx
      · exact le_trans hhead (min_le_left _ _)
      · rcases List.mem_cons.mp hx with rfl | hx
        · exact le_trans hhead (min_le_right _ _)
        · exact ih (min a b) x (List.mem_cons.mpr (Or.inr hx))

theorem foldl_max_mem (a : Int) (l : List Int) : List.foldl max a l ∈ a :: l := by
  induction l generalizing a with
  | nil => simp [List.foldl]
  | cons b t ih =>
      rw [List.foldl_cons]
      rcases List.mem_cons.mp (ih (max a b)) with h | h
      · rcases max_choice a b with hc | hc
        · exact List.mem_cons.mpr (Or.inl (by rw [h, hc]))
        · exact List.mem_cons.mpr (Or.inr (List.mem_cons.mpr (Or.inl (by rw [h, hc]))))
      · exact List.mem_cons.mpr (Or.inr (List.mem_cons.mpr (Or.inr h)))

theorem le_foldl_max (a : Int) (l : List Int) :
    ∀ x ∈ a :: l, x ≤ List.foldl max a l := by
  induction l generalizing a with
  | nil =>
      intro x hx
      rw [List.mem_singleton.mp hx]
      exact le_refl _
  | cons b t ih =>
      intro x hx
      rw [List.foldl_cons]
      have hhead : max a b ≤ List.foldl max (max a b) t :=
        ih (max a b) (max a b) (List.mem_cons_self _ _)
      rcases List.mem_cons.mp hx with rfl | hx
      · exact le_trans (le_max_left _ _) hhead
      · rcases List.mem_cons.mp hx with rfl | hx
        · exact le_trans (le_max_right _ _) hhead
        · exact ih (max a b) x (List.mem_cons.mpr (Or.inr hx))

/-- C9: for every readable dataset whose timestamp column is the non-empty
sequence t :: ts, load_times succeeds with the alert closed and the two
time fields set to fmt of the minimum and fmt of the maximum of the
sequence, where fmt is the second-precision local datetime formatter. -/
theorem C9_load_times_min_max (fs : String → FileOutcome) (fmt : Int → String)
    (fn : String) (t : Int) (ts : List Int)
    (hfn : fn ≠ "") (hfs : fs fn = .ok (t :: ts)) :
    ∃ m M : Int,
      load_times fs fmt fn = some [.b false, .noUpdate, .s (fmt m), .s (fmt M)]
      ∧ m ∈ t :: ts ∧ (∀ x ∈ t :: ts, m ≤ x)
      ∧ M ∈ t :: ts ∧ (∀ x ∈ t :: ts, x ≤ M) := by
  refine ⟨List.foldl min t ts, List.foldl max t ts, ?_,
    foldl_min_mem t ts, foldl_min_le t ts, foldl_max_mem t ts, le_foldl_max t ts⟩
  unfold load_times
  rw [if_neg hfn, hfs]

/-- C9 witness: the time bounds of the concrete dataset 3, 1, 2. -/
theorem C9_load_times_min_max_witness :
    ∃ m M : Int,
      load_times fs312 toString "run.h5"
        = some [.b false, .noUpdate, .s (toString m), .s (toString M)]
      ∧ m ∈ [3, 1, 2] ∧ (∀ x ∈ ([3, 1, 2] : List Int), m ≤ x)
      ∧ M ∈ [3, 1, 2] ∧ (∀ x ∈ ([3, 1, 2] : List Int), x ≤ M) :=
  C9_load_times_min_max fs312 toString "run.h5" 3 [1, 2] (by decide) rfl

/-- C10: each error branch of the calibrate handler returns six values
(empty path, engine ValueError, any other engine exception) while the
success branch returns five, and the callback declares exactly five
outputs, so only the success branch matches the declared interface. -/
theorem C10_branch_arities (env : Env) (ct st et fn : String) :
    (calibrate env ct "" st et).outputs.length = 6
    ∧ calibrateDeclaredOutputs.length = 5
    ∧ (fn ≠ "" →
        (calibrate env ct fn st et).outputs.length
          = match env.engine (mergedConfig env ct fn st et) with
            | .ok _ => 5
            | .valueError _ => 6
            | .otherError _ => 6) := by
  refine ⟨rfl, rfl, ?_⟩
  intro hfn
  unfold calibrate
  rw [if_neg hfn]
  cases env.engine (mergedConfig env ct fn st et) <;> rfl

/-- C10 witness: the arity mismatch observed on concrete error and success
runs. -/
theorem C10_branch_arities_witness :
    (calibrate envV "cfg" "" "s" "e").outputs.length = 6
    ∧ (calibrate envV "cfg" "run.h5" "s" "e").outputs.length
        = match envV.engine (mergedConfig envV "cfg" "run.h5" "s" "e") with
          | .ok _ => 5
          | .valueError _ => 6
          | .otherError _ => 6 :=
  ⟨(C10_branch_arities envV "cfg" "s" "e" "run.h5").1,
   (C10_branch_arities envV "cfg" "s" "e" "run.h5").2.2 (by decide)⟩

/-- C7: the source registers no callback for the Clear log button, so
clicking it triggers no handler at all: with client text "A" and buffers
("o", "e") the click leaves the whole state unchanged and in particular
does not reset the client text, contradicting the specified ClearLog
behaviour (the buffers are indeed left untruncated, but vacuously). -/
theorem C7_clear_log_is_dead :
    ((callbackRegistry.map Prod.fst).contains "button-clears" = false)
    ∧ clearLogClick ⟨"A", ⟨"o", "e"⟩⟩ = ⟨"A", ⟨"o", "e"⟩⟩
    ∧ (clearLogClick ⟨"A", ⟨"o", "e"⟩⟩).clientLog ≠ "" := by
  refine ⟨by decide, rfl, by decide⟩

end Evd
